import Mathlib

/-!
Shallow embedding of the sparkify data-lake ETL job (src/etl.py).

Dataframes are embedded as Lean lists of rows; each row structure mirrors the
explicit StructType schema declared in the source, with a nullable column of
engine type T embedded as Option T and a non-nullable column as T.  DoubleType
payloads are embedded as Rat: the pipeline never performs arithmetic on them,
it only compares them for exact equality, which Rat models faithfully.
Spark operations are embedded as follows:
  - select/withColumn projections  ->  List.map with an explicit record build
  - dropDuplicates / distinct      ->  List.dedup  (set semantics, Mathlib)
  - filter                         ->  List.filter
  - left_outer join                ->  per-row match list, null-extended when
                                       no row of the right side satisfies the
                                       join condition (SQL three-valued logic:
                                       a comparison with NULL is not true, so
                                       NULL never matches)
  - monotonically_increasing_id    ->  position index after List.enum
  - write.mode(overwrite).parquet  ->  update of a path-indexed store
TimestampType values are embedded as epoch milliseconds (Int): the udf
get_timestamp maps the LongType ts field through
datetime.utcfromtimestamp(int(x)/1000), which preserves exactly the
millisecond instant, and the calendar accessors hour/dayofmonth/weekofyear/
month/year/dayofweek are embedded below as the standard proleptic-Gregorian
UTC calendar functions on that instant (session timezone UTC).
-/

/-- Calendar: seconds, minutes, hours, days carved out of an epoch-millisecond
instant.  Int.fdiv floors, as UTC day arithmetic requires for instants before
the epoch; Int.emod is the matching nonnegative remainder. -/
def msOf (t : Int) : Int := t.emod 1000

def secondOf (t : Int) : Int := (t.fdiv 1000).emod 60

def minuteOf (t : Int) : Int := (t.fdiv 60000).emod 60

def hourOf (t : Int) : Int := (t.fdiv 3600000).emod 24

def daysOf (t : Int) : Int := t.fdiv 86400000

/-- Civil date (year, month, day) of a count of days since 1970-01-01, by the
standard era-decomposition algorithm for the proleptic Gregorian calendar. -/
def civilFromDays (z0 : Int) : Int × Int × Int :=
  let z := z0 + 719468
  let era := z.fdiv 146097
  let doe := z - era * 146097
  let yoe := (doe - doe / 1460 + doe / 36524 - doe / 146096) / 365
  let y := yoe + era * 400
  let doy := doe - (365 * yoe + yoe / 4 - yoe / 100)
  let mp := (5 * doy + 2) / 153
  let d := doy - (153 * mp + 2) / 5 + 1
  let m := mp + (if mp < 10 then 3 else -9)
  (y + (if m ≤ 2 then 1 else 0), m, d)

def yearOf (t : Int) : Int := (civilFromDays (daysOf t)).1

def monthOf (t : Int) : Int := (civilFromDays (daysOf t)).2.1

def dayOf (t : Int) : Int := (civilFromDays (daysOf t)).2.2

/-- Spark dayofweek: 1 = Sunday .. 7 = Saturday.  1970-01-01 was a Thursday. -/
def weekdayOf (t : Int) : Int := ((daysOf t + 4).emod 7) + 1

/-- ISO weekday, 1 = Monday .. 7 = Sunday, of a day count since the epoch. -/
def isoDayOfWeek (days : Int) : Int := ((days + 3).emod 7) + 1

def isLeapYear (y : Int) : Bool :=
  (y.emod 4 == 0 && y.emod 100 != 0) || y.emod 400 == 0

/-- Days in the months strictly before month m (1-based), in a given year. -/
def daysBeforeMonth (y m : Int) : Int :=
  let feb : Int := if isLeapYear y then 29 else 28
  if m ≤ 1 then 0
  else if m = 2 then 31
  else if m = 3 then 31 + feb
  else if m = 4 then 62 + feb
  else if m = 5 then 92 + feb
  else if m = 6 then 123 + feb
  else if m = 7 then 153 + feb
  else if m = 8 then 184 + feb
  else if m = 9 then 215 + feb
  else if m = 10 then 245 + feb
  else if m = 11 then 276 + feb
  else 306 + feb

/-- Auxiliary quantity of the ISO-8601 week rule: weekday drift of year y. -/
def isoP (y : Int) : Int := (y + y.fdiv 4 - y.fdiv 100 + y.fdiv 400).emod 7

def isoWeeksInYear (y : Int) : Int :=
  if isoP y = 4 ∨ isoP (y - 1) = 3 then 53 else 52

/-- Spark weekofyear: the ISO-8601 week number of the UTC civil date. -/
def weekOf (t : Int) : Int :=
  let days := daysOf t
  let c := civilFromDays days
  let doy := daysBeforeMonth c.1 c.2.1 + c.2.2
  let w := (doy - isoDayOfWeek days + 10).fdiv 7
  if w < 1 then isoWeeksInYear (c.1 - 1)
  else if w > isoWeeksInYear c.1 then 1
  else w

/-- The udf at src/etl.py line 119: lambda x : datetime.utcfromtimestamp(
int(x)/1000).  On an epoch-millisecond Long this denotes exactly the same
instant, so under the epoch-millisecond embedding of TimestampType it is the
identity. -/
def get_timestamp (ts : Int) : Int := ts

/-- A parsed song-metadata record, per the StructType song_schema declared at
src/etl.py lines 41-52 (and again at 136-147): nullable columns are Option. -/
structure SongRow where
  artist_id : String
  artist_latitude : Option Rat
  artist_location : Option String
  artist_longitude : Option Rat
  artist_name : Option String
  duration : Option Rat
  num_songs : Option Int
  song_id : String
  title : String
  year : Int
deriving DecidableEq, Repr

/-- A parsed activity-log record, per the StructType log_schema declared at
src/etl.py lines 85-104. -/
structure LogRow where
  artist : String
  auth : Option String
  firstName : Option String
  gender : Option String
  itemInSession : Option Int
  lastName : Option String
  length : Option Rat
  level : String
  location : String
  method : Option String
  page : Option String
  registration : Option Rat
  sessionId : Int
  song : Option String
  status : Option Int
  ts : Int
  userAgent : String
  userId : String
deriving DecidableEq, Repr

/-- A row of the songs dimension table: line 58. -/
structure SongsRow where
  song_id : String
  title : String
  artist_id : String
  year : Int
  duration : Option Rat
deriving DecidableEq, Repr

/-- A row of the artists dimension table: line 64. -/
structure ArtistsRow where
  artist_id : String
  artist_name : Option String
  artist_location : Option String
  artist_latitude : Option Rat
  artist_longitude : Option Rat
deriving DecidableEq, Repr

/-- A row of the users dimension table: line 113. -/
structure UsersRow where
  user_id : String
  first_name : Option String
  last_name : Option String
  gender : Option String
  level : String
deriving DecidableEq, Repr

/-- A row of the time dimension table: lines 123-130. -/
structure TimeRow where
  start_time : Int
  hour : Int
  day : Int
  week : Int
  month : Int
  year : Int
  weekday : Int
deriving DecidableEq, Repr

/-- A row of SELECT DISTINCT song_id, title, artist_id, artist_name, duration
FROM df_song_table (lines 150-152), the right side of the songplays join. -/
structure SongViewRow where
  song_id : String
  title : String
  artist_id : String
  artist_name : Option String
  duration : Option Rat
deriving DecidableEq, Repr

/-- A row of the songplays fact table: lines 155-167. -/
structure SongplayRow where
  songplay_id : Nat
  start_time : Int
  user_id : String
  level : String
  song_id : Option String
  artist_id : Option String
  session_id : Int
  location : String
  user_agent : String
  month : Int
  year : Int
deriving DecidableEq, Repr

/-- The select list of line 58: song_id, title, artist_id, year, duration. -/
def projSongs (r : SongRow) : SongsRow :=
  { song_id := r.song_id, title := r.title, artist_id := r.artist_id,
    year := r.year, duration := r.duration }

/-- songs_table = df_song.select(song_id, title, artist_id, year,
duration).dropDuplicates()  (line 58). -/
def songs_table (df_song : List SongRow) : List SongsRow :=
  (df_song.map projSongs).dedup

/-- artists_table = df_song.select(artist_id, artist_name, artist_location,
artist_latitude, artist_longitude).dropDuplicates()  (line 64). -/
def artists_table (df_song : List SongRow) : List ArtistsRow :=
  (df_song.map fun r =>
    { artist_id := r.artist_id, artist_name := r.artist_name,
      artist_location := r.artist_location, artist_latitude := r.artist_latitude,
      artist_longitude := r.artist_longitude }).dedup

/-- df = df.filter(df.page == NextSong)  (line 110).  SQL equality with NULL
is not true, so rows with a null page column are dropped. -/
def filterNextSong (df : List LogRow) : List LogRow :=
  df.filter fun r => r.page == some "NextSong"

/-- The select list of line 113: userId, firstName, lastName, gender, level. -/
def projUsers (r : LogRow) : UsersRow :=
  { user_id := r.userId, first_name := r.firstName, last_name := r.lastName,
    gender := r.gender, level := r.level }

/-- users_table = df.select(userId, firstName, lastName, gender,
level).dropDuplicates()  (line 113), taken from the filtered df. -/
def users_table (df : List LogRow) : List UsersRow :=
  ((filterNextSong df).map projUsers).dedup

/-- The time-table row derived from one start_time value (lines 123-129). -/
def timeRowOf (t : Int) : TimeRow :=
  { start_time := t, hour := hourOf t, day := dayOf t, week := weekOf t,
    month := monthOf t, year := yearOf t, weekday := weekdayOf t }

/-- time_table: withColumn hour/day/week/month/year/weekday from start_time,
select, drop_duplicates  (lines 123-130), over the filtered df with
start_time = get_timestamp(ts)  (line 120). -/
def time_table (df : List LogRow) : List TimeRow :=
  ((filterNextSong df).map fun r => timeRowOf (get_timestamp r.ts)).dedup

/-- The column list of the view query (lines 150-152). -/
def projView (r : SongRow) : SongViewRow :=
  { song_id := r.song_id, title := r.title, artist_id := r.artist_id,
    artist_name := r.artist_name, duration := r.duration }

/-- song_df = SELECT DISTINCT song_id, title, artist_id, artist_name, duration
FROM df_song_table  (lines 150-152); the temp view df_song_table holds the raw
song dataset registered at line 70. -/
def song_view (df_song : List SongRow) : List SongViewRow :=
  (df_song.map projView).dedup

/-- SQL equality under three-valued logic, as a join predicate: true exactly
when both sides are non-NULL and equal; any NULL operand fails the match. -/
def nullEq {α : Type} [DecidableEq α] : Option α → Option α → Bool
  | some a, some b => decide (a = b)
  | _, _ => false

/-- The join condition of line 155: (df.song == song_df.title) AND
(df.artist == song_df.artist_name) AND (df.length == song_df.duration). -/
def joinCond (e : LogRow) (s : SongViewRow) : Bool :=
  nullEq e.song (some s.title) && nullEq (some e.artist) s.artist_name &&
    nullEq e.length s.duration

/-- The rows a single left-side event contributes to the left_outer join of
line 155: one row per matching right-side row, or a single null-extended row
when nothing matches. -/
def leftJoinRows (e : LogRow) (view : List SongViewRow) :
    List (LogRow × Option SongViewRow) :=
  match view.filter (joinCond e) with
  | [] => [(e, none)]
  | ms => ms.map fun s => (e, some s)

/-- The select of lines 157-167 applied to one joined row at one position:
monotonically_increasing_id is embedded as the row position, and the year and
month columns are recomputed from the start_time of the row itself. -/
def songplayOf (p : Nat × (LogRow × Option SongViewRow)) : SongplayRow :=
  let e := p.2.1
  let st := get_timestamp e.ts
  { songplay_id := p.1, start_time := st, user_id := e.userId,
    level := e.level, song_id := p.2.2.map fun s => s.song_id,
    artist_id := p.2.2.map fun s => s.artist_id, session_id := e.sessionId,
    location := e.location, user_agent := e.userAgent,
    month := monthOf st, year := yearOf st }

/-- The joined result of line 155 after .distinct() (line 156): the
left_outer join of the filtered, timestamped events against song_df, with
exact duplicates removed. -/
def joinedDistinct (df_log : List LogRow) (df_song : List SongRow) :
    List (LogRow × Option SongViewRow) :=
  ((filterNextSong df_log).flatMap fun e =>
    leftJoinRows e (song_view df_song)).dedup

/-- songplays_table (lines 155-167): left_outer join of the filtered,
timestamped events against song_df, distinct, then the select with the
synthetic identifier and the year and month columns. -/
def songplays_table (df_log : List LogRow) (df_song : List SongRow) :
    List SongplayRow :=
  (joinedDistinct df_log df_song).enum.map songplayOf


/-!
Output layer.  Each parquet write targets the path output_data + suffix, with
mode overwrite: whatever was at that path before is discarded and replaced.
A path is embedded as the pair of the output root and the fixed table suffix
the source concatenates onto it; within one run a single root is in use, so
the pair determines the concatenated path.  The partitionBy clauses shard a
table across subdirectories of its path without changing its row set, so the
store holds whole tables.
-/

/-- An output path: root ++ suffix as built at lines 61, 67, 116, 133, 170. -/
structure OutPath where
  root : String
  suffix : String
deriving DecidableEq, Repr

/-- The value stored at one output path: one of the five written tables. -/
inductive TableData where
  | songs (t : List SongsRow)
  | artists (t : List ArtistsRow)
  | users (t : List UsersRow)
  | time (t : List TimeRow)
  | songplays (t : List SongplayRow)
deriving DecidableEq, Repr

/-- The object store: contents (if any) at each output path. -/
def Store : Type := OutPath → Option TableData

/-- write.mode(overwrite).parquet(path): replace the contents at path. -/
def writeTable (st : Store) (p : OutPath) (t : TableData) : Store :=
  fun q => if q = p then some t else st q

/-- process_song_data (lines 28-70), output side: writes songs_table then
artists_table under the output root, each with mode overwrite.  The parsed
song dataset stands in for the read of line 55. -/
def process_song_data (df_song : List SongRow) (output_data : String)
    (st : Store) : Store :=
  writeTable
    (writeTable st { root := output_data, suffix := "songs_table/" }
      (.songs (songs_table df_song)))
    { root := output_data, suffix := "artists_table/" }
    (.artists (artists_table df_song))

/-- process_log_data (lines 72-170), output side: writes users_table, then
time_table, then songplays_table, each with mode overwrite.  The song dataset
reaches this stage through the df_song_table view of line 70. -/
def process_log_data (df_log : List LogRow) (df_song : List SongRow)
    (output_data : String) (st : Store) : Store :=
  writeTable
    (writeTable
      (writeTable st { root := output_data, suffix := "users_table/" }
        (.users (users_table df_log)))
      { root := output_data, suffix := "time_table/" }
      (.time (time_table df_log)))
    { root := output_data, suffix := "songplays_table/" }
    (.songplays (songplays_table df_log df_song))

/-- main (lines 172-181): process_song_data, then process_log_data, against
one pair of roots and one store. -/
def etl_main (df_song : List SongRow) (df_log : List LogRow)
    (output_data : String) (st : Store) : Store :=
  process_log_data df_log df_song output_data
    (process_song_data df_song output_data st)

/-!
Read layer of the song-catalog loader.  Line 55 reads the files matched by
the glob song_data/​*/​*/​*/​*.json with spark.read.csv under song_schema.  The
CSV reader is embedded line by line: a record file is a list of lines, a line
is split at commas into positional fields, and each field is cast to the
column type of its position; a missing field or a failed numeric cast yields
NULL (the engine applies the declared types positionally and does not enforce
the declared non-nullability on read), so every column of the loaded row is
an Option.
-/

/-- Split a character list at every occurrence of the separator. -/
def splitOnChar (c : Char) : List Char → List (List Char)
  | [] => [[]]
  | x :: xs =>
    let r := splitOnChar c xs
    if x = c then [] :: r
    else
      match r with
      | [] => [[x]]
      | y :: ys => (x :: y) :: ys

/-- The comma-separated fields of one CSV line. -/
def commaFields (line : String) : List String :=
  (splitOnChar ',' line.data).map String.mk

/-- Digits-only reading of a natural number; none on a non-digit or on the
empty list. -/
def digitsToNatAux : List Char → Nat → Option Nat
  | [], acc => some acc
  | c :: cs, acc =>
    if c.isDigit then digitsToNatAux cs (acc * 10 + (c.toNat - 48)) else none

def digitsToNat : List Char → Option Nat
  | [] => none
  | l => digitsToNatAux l 0

/-- Cast of a CSV field to IntegerType or LongType: optional sign, digits. -/
def castInt (s : String) : Option Int :=
  match s.data with
  | '-' :: rest => (digitsToNat rest).map fun n => -(n : Int)
  | l => (digitsToNat l).map fun n => (n : Int)

def castNonnegDouble (l : List Char) : Option Rat :=
  match splitOnChar '.' l with
  | [a] => (digitsToNat a).map fun n => (n : Rat)
  | [a, b] =>
    match digitsToNat a, digitsToNat b with
    | some i, some f => some ((i : Rat) + (f : Rat) / ((10 : Rat) ^ b.length))
    | _, _ => none
  | _ => none

/-- Cast of a CSV field to DoubleType: decimal number, else NULL. -/
def castDouble (s : String) : Option Rat :=
  match s.data with
  | '-' :: rest => (castNonnegDouble rest).map Neg.neg
  | l => castNonnegDouble l

/-- A row loaded by spark.read.csv under song_schema: column i of the schema
is filled from positional field i of the line. -/
structure CsvSongRow where
  artist_id : Option String
  artist_latitude : Option Rat
  artist_location : Option String
  artist_longitude : Option Rat
  artist_name : Option String
  duration : Option Rat
  num_songs : Option Int
  song_id : Option String
  title : Option String
  year : Option Int
deriving DecidableEq, Repr

/-- One line parsed by the CSV reader of line 55 under song_schema. -/
def csvSongRowOfLine (line : String) : CsvSongRow :=
  let f := commaFields line
  { artist_id := f[0]?
    artist_latitude := (f[1]?).bind castDouble
    artist_location := f[2]?
    artist_longitude := (f[3]?).bind castDouble
    artist_name := f[4]?
    duration := (f[5]?).bind castDouble
    num_songs := (f[6]?).bind castInt
    song_id := f[7]?
    title := f[8]?
    year := (f[9]?).bind castInt }

/-- df_song = spark.read.csv(song_data, schema=song_schema)  (line 55),
applied to the lines of the matched files. -/
def read_csv_song (lines : List String) : List CsvSongRow :=
  lines.map csvSongRowOfLine

/-- A well-formed song-metadata record file holds one JSON object per line,
with the ten named fields of song_schema.  This is one such line (shape of
the dataset the glob of line 38 matches); braces written via escapes. -/
def songJsonLine : String :=
  "\x7b\"artist_id\": \"ARJIE2Y1187B994AB7\", \"artist_latitude\": null, \"artist_location\": \"\", \"artist_longitude\": null, \"artist_name\": \"Line Renaud\", \"duration\": 152.92036, \"num_songs\": 1, \"song_id\": \"SOUPIRU12A6D4FA1E1\", \"title\": \"Der Kleine Dompfaff\", \"year\": 0\x7d"

/-- The single joined row an event yields when at most one view row matches
it: its unique match, or the null extension. -/
def matchRow (view : List SongViewRow) (e : LogRow) :
    LogRow × Option SongViewRow :=
  match view.filter (joinCond e) with
  | [] => (e, none)
  | s :: _ => (e, some s)

/-- The event-side fields of a songplay row agree with a given log event;
all of them are non-nullable columns of the fact table. -/
def sameEventFields (row : SongplayRow) (e : LogRow) : Prop :=
  row.start_time = get_timestamp e.ts ∧ row.user_id = e.userId ∧
  row.level = e.level ∧ row.session_id = e.sessionId ∧
  row.location = e.location ∧ row.user_agent = e.userAgent

/-!
Concrete rows used by the closed counterexamples and witnesses below.
Durations and lengths take integer values of the Double payloads so that the
kernel can evaluate every comparison directly; the pipeline treats them as
opaque exact values either way.
-/

/-- A NextSong log event whose song, artist and length match s1. -/
def e1 : LogRow :=
  { artist := "Line Renaud", auth := some "Logged In",
    firstName := some "Lily", gender := some "F", itemInSession := some 0,
    lastName := some "Koch", length := some 152, level := "paid",
    location := "Chicago-Naperville-Elgin, IL-IN-WI", method := some "PUT",
    page := some "NextSong", registration := some 1540344794796,
    sessionId := 818, song := some "Der Kleine Dompfaff", status := some 200,
    ts := 1541121934796, userAgent := "Mozilla/5.0", userId := "15" }

/-- A catalog record matching e1 on (title, artist_name, duration). -/
def s1 : SongRow :=
  { artist_id := "AR5KOSW1187FB35FF4", artist_latitude := none,
    artist_location := some "Paris, France", artist_longitude := none,
    artist_name := some "Line Renaud", duration := some 152,
    num_songs := some 1, song_id := "SOUPIRU12A6D4FA1E1",
    title := "Der Kleine Dompfaff", year := 0 }

/-- A second catalog record with the same (title, artist_name, duration) as
s1 but different identifiers. -/
def s1b : SongRow :=
  { artist_id := "ARXYZZZ1187FB3B3C3", artist_latitude := none,
    artist_location := none, artist_longitude := none,
    artist_name := some "Line Renaud", duration := some 152,
    num_songs := some 1, song_id := "SOXYZZZ12AB0182B47",
    title := "Der Kleine Dompfaff", year := 2001 }

/-- A catalog record sharing its song_id with s4b but not its other fields. -/
def s4a : SongRow :=
  { artist_id := "ARAAAAA1187FB35FF4", artist_latitude := none,
    artist_location := none, artist_longitude := none,
    artist_name := some "Some Artist", duration := some 100,
    num_songs := some 1, song_id := "SODUPID12A6D4FA1E1",
    title := "First Title", year := 1999 }

/-- A catalog record sharing its song_id with s4a but not its other fields. -/
def s4b : SongRow :=
  { artist_id := "ARAAAAA1187FB35FF4", artist_latitude := none,
    artist_location := none, artist_longitude := none,
    artist_name := some "Some Artist", duration := some 100,
    num_songs := some 1, song_id := "SODUPID12A6D4FA1E1",
    title := "Second Title", year := 2001 }

/-- A NextSong event of user 42 at level free. -/
def e5a : LogRow :=
  { artist := "Artist A", auth := some "Logged In", firstName := some "Ann",
    gender := some "F", itemInSession := some 1, lastName := some "Smith",
    length := some 200, level := "free", location := "Portland",
    method := some "PUT", page := some "NextSong", registration := some 1,
    sessionId := 100, song := some "Song A", status := some 200,
    ts := 1541121934796, userAgent := "Firefox", userId := "42" }

/-- Another NextSong event of user 42 at level free, with a different
recorded first name. -/
def e5b : LogRow :=
  { artist := "Artist B", auth := some "Logged In", firstName := some "Anne",
    gender := some "F", itemInSession := some 2, lastName := some "Smith",
    length := some 210, level := "free", location := "Portland",
    method := some "PUT", page := some "NextSong", registration := some 1,
    sessionId := 100, song := some "Song B", status := some 200,
    ts := 1541121934796, userAgent := "Firefox", userId := "42" }

/-!
Helper lemmas about the embedding, shared by the claim theorems below.
-/

lemma exists_enum_of_mem {α : Type} {l : List α} {a : α} (h : a ∈ l) :
    ∃ i, (i, a) ∈ l.enum := by
  have h2 : a ∈ l.enum.map Prod.snd := by rw [List.enum_map_snd]; exact h
  rcases List.mem_map.1 h2 with ⟨p, hp, hpa⟩
  cases p with
  | mk i b => exact ⟨i, by cases hpa; exact hp⟩

lemma mem_songplays_of_mem_joined {df_log : List LogRow}
    {df_song : List SongRow} {x : LogRow × Option SongViewRow}
    (hx : x ∈ joinedDistinct df_log df_song) :
    ∃ i, songplayOf (i, x) ∈ songplays_table df_log df_song := by
  rcases exists_enum_of_mem hx with ⟨i, hi⟩
  exact ⟨i, List.mem_map_of_mem songplayOf hi⟩

lemma mem_leftJoinRows_of_mem_filter {e : LogRow} {s : SongViewRow}
    {view : List SongViewRow} (hs : s ∈ view.filter (joinCond e)) :
    (e, some s) ∈ leftJoinRows e view := by
  unfold leftJoinRows
  cases hv : view.filter (joinCond e) with
  | nil => rw [hv] at hs; exact absurd hs (List.not_mem_nil s)
  | cons a t =>
    rw [hv] at hs
    exact List.mem_map_of_mem (fun s => (e, some s)) hs

lemma leftJoinRows_of_no_match {e : LogRow} {view : List SongViewRow}
    (h : view.filter (joinCond e) = []) :
    leftJoinRows e view = [(e, none)] := by
  unfold leftJoinRows
  rw [h]

lemma leftJoinRows_eq_matchRow {e : LogRow} {view : List SongViewRow}
    (h : (view.filter (joinCond e)).length ≤ 1) :
    leftJoinRows e view = [matchRow view e] := by
  unfold leftJoinRows matchRow
  cases hv : view.filter (joinCond e) with
  | nil => rfl
  | cons a t =>
    rw [hv] at h
    have ht : t = [] := by
      rw [List.length_cons] at h
      exact List.eq_nil_of_length_eq_zero (Nat.le_zero.1 (Nat.le_of_succ_le_succ h))
    subst ht
    rfl

lemma flatMap_eq_map_of_forall {α β : Type} {l : List α} {f : α → List β}
    {g : α → β} (h : ∀ a ∈ l, f a = [g a]) : l.flatMap f = l.map g := by
  induction l with
  | nil => rfl
  | cons a t ih =>
    rw [List.flatMap_cons, List.map_cons, h a (List.mem_cons_self a t),
      ih fun b hb => h b (List.mem_cons_of_mem a hb), List.singleton_append]

lemma dedup_map_of_injective {α β : Type} [DecidableEq α] [DecidableEq β]
    {g : α → β} (hg : Function.Injective g) (l : List α) :
    (l.map g).dedup = l.dedup.map g := by
  induction l with
  | nil => rfl
  | cons a t ih =>
    by_cases ha : a ∈ t
    · rw [List.map_cons, List.dedup_cons_of_mem (List.mem_map_of_mem g ha),
        List.dedup_cons_of_mem ha, ih]
    · have hga : g a ∉ t.map g := by
        intro hmem
        rcases List.mem_map.1 hmem with ⟨b, hb, hgb⟩
        exact ha (hg hgb ▸ hb)
      rw [List.map_cons, List.dedup_cons_of_not_mem hga,
        List.dedup_cons_of_not_mem ha, List.map_cons, ih]

lemma matchRow_injective (view : List SongViewRow) :
    Function.Injective (matchRow view) := by
  intro a b hab
  have : (matchRow view a).1 = (matchRow view b).1 := congrArg Prod.fst hab
  unfold matchRow at this
  cases ha : view.filter (joinCond a) <;> cases hb : view.filter (joinCond b) <;>
    rw [ha, hb] at this <;> exact this

lemma time_table_row_eq {df : List LogRow} {row : TimeRow}
    (h : row ∈ time_table df) : row = timeRowOf row.start_time := by
  rcases List.mem_map.1 (List.mem_dedup.1 h) with ⟨r, _, hr⟩
  rw [← hr]
  rfl

lemma sameEventFields_songplayOf (i : Nat) (e : LogRow)
    (m : Option SongViewRow) : sameEventFields (songplayOf (i, (e, m))) e :=
  ⟨rfl, rfl, rfl, rfl, rfl, rfl⟩

/-- Claim C1: the songplays join is a left-outer, event-log-preserving join.
For every filtered NextSong event: each catalog record whose (title,
artist_name, duration) the event matches under the join condition yields a
fact row carrying that record's song_id and artist_id (non-null) together
with the event's own fields, and when no catalog record matches, a fact row
with null song_id and artist_id and the event's (non-nullable) fields is
still present. -/
theorem songplays_left_outer_join (df_log : List LogRow)
    (df_song : List SongRow) (e : LogRow) (he : e ∈ filterNextSong df_log) :
    (∀ r ∈ df_song, joinCond e (projView r) = true →
      ∃ row ∈ songplays_table df_log df_song,
        row.song_id = some r.song_id ∧ row.artist_id = some r.artist_id ∧
          sameEventFields row e) ∧
    ((∀ r ∈ df_song, joinCond e (projView r) = false) →
      ∃ row ∈ songplays_table df_log df_song,
        row.song_id = none ∧ row.artist_id = none ∧ sameEventFields row e) := by
  constructor
  · intro r hr hcond
    have hfil : projView r ∈ (song_view df_song).filter (joinCond e) :=
      List.mem_filter.2 ⟨List.mem_dedup.2 (List.mem_map_of_mem projView hr),
        hcond⟩
    have hjoin : (e, some (projView r)) ∈ joinedDistinct df_log df_song :=
      List.mem_dedup.2
        (List.mem_flatMap.2 ⟨e, he, mem_leftJoinRows_of_mem_filter hfil⟩)
    rcases mem_songplays_of_mem_joined hjoin with ⟨i, hi⟩
    exact ⟨songplayOf (i, (e, some (projView r))), hi, rfl, rfl,
      sameEventFields_songplayOf i e (some (projView r))⟩
  · intro hnone
    have hfil : (song_view df_song).filter (joinCond e) = [] := by
      rw [List.filter_eq_nil_iff]
      intro s hs
      rcases List.mem_map.1 (List.mem_dedup.1 hs) with ⟨r, hr, hrs⟩
      rw [← hrs]
      simp [hnone r hr]
    have hjoin : (e, none) ∈ joinedDistinct df_log df_song := by
      refine List.mem_dedup.2 (List.mem_flatMap.2 ⟨e, he, ?_⟩)
      rw [leftJoinRows_of_no_match hfil]
      exact List.mem_cons_self _ _
    rcases mem_songplays_of_mem_joined hjoin with ⟨i, hi⟩
    exact ⟨songplayOf (i, (e, none)), hi, rfl, rfl,
      sameEventFields_songplayOf i e none⟩

/-- Witness for the claim C1 theorem at a concrete matching input. -/
theorem songplays_left_outer_join_witness :
    e1 ∈ filterNextSong [e1] ∧
    ((∀ r ∈ [s1], joinCond e1 (projView r) = true →
      ∃ row ∈ songplays_table [e1] [s1],
        row.song_id = some r.song_id ∧ row.artist_id = some r.artist_id ∧
          sameEventFields row e1) ∧
    ((∀ r ∈ [s1], joinCond e1 (projView r) = false) →
      ∃ row ∈ songplays_table [e1] [s1],
        row.song_id = none ∧ row.artist_id = none ∧
          sameEventFields row e1)) :=
  ⟨by decide, songplays_left_outer_join [e1] [s1] e1 (by decide)⟩

/-- Claim C2 counterexample: with one distinct NextSong event and two
distinct catalog records sharing the same (title, artist_name, duration),
the join fans out and the songplays table has two rows, not one. -/
theorem songplays_cardinality_cex :
    (songplays_table [e1] [s1, s1b]).length = 2 ∧
    ((filterNextSong [e1]).dedup).length = 1 ∧
    (songplays_table [e1] [s1, s1b]).length ≠
      ((filterNextSong [e1]).dedup).length := by decide

/-- Claim C2 as amended: when every filtered event matches at most one
distinct catalog (title, artist_name, duration) record, the songplays table
has exactly one row per distinct NextSong event after deduplication. -/
theorem songplays_cardinality (df_log : List LogRow) (df_song : List SongRow)
    (h : ∀ e ∈ filterNextSong df_log,
      ((song_view df_song).filter (joinCond e)).length ≤ 1) :
    (songplays_table df_log df_song).length =
      ((filterNextSong df_log).dedup).length := by
  unfold songplays_table
  rw [List.length_map, List.enum_length]
  unfold joinedDistinct
  rw [flatMap_eq_map_of_forall fun e hee => leftJoinRows_eq_matchRow (h e hee),
    dedup_map_of_injective (matchRow_injective (song_view df_song)),
    List.length_map]

/-- Witness for the claim C2 theorem at a concrete input. -/
theorem songplays_cardinality_witness :
    (∀ e ∈ filterNextSong [e1],
      ((song_view [s1]).filter (joinCond e)).length ≤ 1) ∧
    (songplays_table [e1] [s1]).length =
      ((filterNextSong [e1]).dedup).length :=
  ⟨by decide, songplays_cardinality [e1] [s1] (by decide)⟩

/-- Claim C3 (code bug): the song-catalog loader reads the JSON record files
through the CSV reader (line 55), so a well-formed song-metadata record is
not loaded as its named fields; the string columns receive raw comma-split
text fragments of the JSON line instead. -/
theorem read_csv_song_misparses_json :
    (read_csv_song [songJsonLine]).map
        (fun r => (r.artist_id, r.song_id, r.title)) ≠
      [(some "ARJIE2Y1187B994AB7", some "SOUPIRU12A6D4FA1E1",
        some "Der Kleine Dompfaff")] ∧
    (read_csv_song [songJsonLine]).map (fun r => r.artist_id) =
      [some "\x7b\"artist_id\": \"ARJIE2Y1187B994AB7\""] := by decide

/-- Claim C4 counterexample: two catalog records sharing a song_id but
differing in title and year survive dropDuplicates, so the songs table
holds two distinct rows with the same song_id. -/
theorem songs_unique_per_song_id_cex :
    (¬ ∀ a ∈ songs_table [s4a, s4b], ∀ b ∈ songs_table [s4a, s4b],
        a.song_id = b.song_id → a = b) ∧
    (songs_table [s4a, s4b]).length = 2 := by decide

/-- Claim C4 as amended: the songs table never holds duplicate rows, and it
holds at most one row per song_id whenever the input dataset determines the
selected columns as a function of song_id. -/
theorem songs_table_unique_per_song_id (df_song : List SongRow)
    (h : ∀ r1 ∈ df_song, ∀ r2 ∈ df_song,
      r1.song_id = r2.song_id → projSongs r1 = projSongs r2) :
    (songs_table df_song).Nodup ∧
    ∀ a ∈ songs_table df_song, ∀ b ∈ songs_table df_song,
      a.song_id = b.song_id → a = b := by
  refine ⟨List.nodup_dedup _, ?_⟩
  intro a ha b hb hab
  rcases List.mem_map.1 (List.mem_dedup.1 ha) with ⟨r1, hr1, hra⟩
  rcases List.mem_map.1 (List.mem_dedup.1 hb) with ⟨r2, hr2, hrb⟩
  subst hra
  subst hrb
  exact h r1 hr1 r2 hr2 hab

/-- Witness for the claim C4 theorem at a concrete input. -/
theorem songs_table_unique_per_song_id_witness :
    (∀ r1 ∈ [s1], ∀ r2 ∈ [s1],
      r1.song_id = r2.song_id → projSongs r1 = projSongs r2) ∧
    ((songs_table [s1]).Nodup ∧
     ∀ a ∈ songs_table [s1], ∀ b ∈ songs_table [s1],
       a.song_id = b.song_id → a = b) :=
  ⟨by decide, songs_table_unique_per_song_id [s1] (by decide)⟩

/-- Claim C5 counterexample: two NextSong events of one user at one level
with different recorded first names yield two distinct user rows sharing
(user_id, level). -/
theorem users_unique_per_user_level_cex :
    (¬ ∀ a ∈ users_table [e5a, e5b], ∀ b ∈ users_table [e5a, e5b],
        a.user_id = b.user_id → a.level = b.level → a = b) ∧
    (users_table [e5a, e5b]).length = 2 := by decide

/-- Claim C5 as amended: the users table never holds duplicate rows, and it
holds at most one row per (user_id, level) whenever the filtered input
determines the selected columns as a function of (userId, level). -/
theorem users_table_unique_per_user_level (df : List LogRow)
    (h : ∀ r1 ∈ filterNextSong df, ∀ r2 ∈ filterNextSong df,
      r1.userId = r2.userId → r1.level = r2.level →
        projUsers r1 = projUsers r2) :
    (users_table df).Nodup ∧
    ∀ a ∈ users_table df, ∀ b ∈ users_table df,
      a.user_id = b.user_id → a.level = b.level → a = b := by
  refine ⟨List.nodup_dedup _, ?_⟩
  intro a ha b hb hab hlv
  rcases List.mem_map.1 (List.mem_dedup.1 ha) with ⟨r1, hr1, hra⟩
  rcases List.mem_map.1 (List.mem_dedup.1 hb) with ⟨r2, hr2, hrb⟩
  subst hra
  subst hrb
  exact h r1 hr1 r2 hr2 hab hlv

/-- Witness for the claim C5 theorem at a concrete input. -/
theorem users_table_unique_per_user_level_witness :
    (∀ r1 ∈ filterNextSong [e5a], ∀ r2 ∈ filterNextSong [e5a],
      r1.userId = r2.userId → r1.level = r2.level →
        projUsers r1 = projUsers r2) ∧
    ((users_table [e5a]).Nodup ∧
     ∀ a ∈ users_table [e5a], ∀ b ∈ users_table [e5a],
       a.user_id = b.user_id → a.level = b.level → a = b) :=
  ⟨by decide, users_table_unique_per_user_level [e5a] (by decide)⟩

/-- Claim C6: every derived field of a time row is the fixed UTC calendar
function of its start_time, so rows with equal start_time are equal; the
deduplicated time table carries pairwise distinct start_times and one row
for each observed timestamp. -/
theorem time_table_functional (df : List LogRow) :
    (∀ row ∈ time_table df, row = timeRowOf row.start_time) ∧
    List.Pairwise (fun a b => a.start_time ≠ b.start_time) (time_table df) ∧
    ∀ e ∈ filterNextSong df, ∃ row ∈ time_table df,
      row.start_time = get_timestamp e.ts := by
  refine ⟨fun row h => time_table_row_eq h, ?_, ?_⟩
  · refine List.Pairwise.imp_of_mem ?_ (List.nodup_dedup _)
    intro a b ha hb hne heq
    apply hne
    rw [time_table_row_eq ha, time_table_row_eq hb, heq]
  · intro e he
    exact ⟨timeRowOf (get_timestamp e.ts),
      List.mem_dedup.2 (List.mem_map_of_mem _ he), rfl⟩

/-- Witness for the claim C6 theorem at a concrete input. -/
theorem time_table_functional_witness :
    e1 ∈ filterNextSong [e1] ∧
    ((∀ row ∈ time_table [e1], row = timeRowOf row.start_time) ∧
     List.Pairwise (fun a b => a.start_time ≠ b.start_time)
       (time_table [e1]) ∧
     ∀ e ∈ filterNextSong [e1], ∃ row ∈ time_table [e1],
       row.start_time = get_timestamp e.ts) :=
  ⟨by decide, time_table_functional [e1]⟩

/-- Claim C7 counterexample: the epoch-millisecond timestamp 1541121934796
does not convert to day 1, hour 21 under the UTC conversion the loader
applies. -/
theorem timestamp_roundtrip_cex :
    dayOf (get_timestamp 1541121934796) ≠ 1 ∧
    hourOf (get_timestamp 1541121934796) ≠ 21 := by decide

/-- Claim C7 as amended: 1541121934796 epoch milliseconds convert to the UTC
calendar timestamp 2018-11-02 01:25:34.796, and the derived time row reads
year 2018, month 11, day 2, hour 1 (week 44, weekday 6, a Friday). -/
theorem timestamp_roundtrip_utc :
    yearOf (get_timestamp 1541121934796) = 2018 ∧
    monthOf (get_timestamp 1541121934796) = 11 ∧
    dayOf (get_timestamp 1541121934796) = 2 ∧
    hourOf (get_timestamp 1541121934796) = 1 ∧
    minuteOf (get_timestamp 1541121934796) = 25 ∧
    secondOf (get_timestamp 1541121934796) = 34 ∧
    msOf (get_timestamp 1541121934796) = 796 ∧
    timeRowOf (get_timestamp 1541121934796) =
      { start_time := 1541121934796, hour := 1, day := 2, week := 44,
        month := 11, year := 2018, weekday := 6 } := by decide

/-- Claim C8: a full run leaves, at each of the five table paths, exactly the
freshly computed table, whatever the store held before: the overwrite mode
discards prior contents and no merge or append occurs. -/
theorem tables_overwritten (df_song : List SongRow) (df_log : List LogRow)
    (output_data : String) (st : Store) :
    etl_main df_song df_log output_data st
        { root := output_data, suffix := "songs_table/" } =
      some (.songs (songs_table df_song)) ∧
    etl_main df_song df_log output_data st
        { root := output_data, suffix := "artists_table/" } =
      some (.artists (artists_table df_song)) ∧
    etl_main df_song df_log output_data st
        { root := output_data, suffix := "users_table/" } =
      some (.users (users_table df_log)) ∧
    etl_main df_song df_log output_data st
        { root := output_data, suffix := "time_table/" } =
      some (.time (time_table df_log)) ∧
    etl_main df_song df_log output_data st
        { root := output_data, suffix := "songplays_table/" } =
      some (.songplays (songplays_table df_log df_song)) := by
  refine ⟨?_, ?_, ?_, ?_, ?_⟩ <;>
    simp [etl_main, process_song_data, process_log_data, writeTable,
      OutPath.mk.injEq]

/-- Claim C9: each songplays row carries partition keys computed from its own
start_time, and they agree with the time-table row of the same start_time. -/
theorem songplays_partition_keys (df_log : List LogRow)
    (df_song : List SongRow) (row : SongplayRow)
    (hrow : row ∈ songplays_table df_log df_song) :
    row.year = yearOf row.start_time ∧ row.month = monthOf row.start_time ∧
    ∀ t ∈ time_table df_log, t.start_time = row.start_time →
      t.year = row.year ∧ t.month = row.month := by
  rcases List.mem_map.1 hrow with ⟨p, hp, hpr⟩
  subst hpr
  refine ⟨rfl, rfl, ?_⟩
  intro t ht hts
  constructor
  · rw [time_table_row_eq ht]
    show yearOf t.start_time = _
    rw [hts]
    rfl
  · rw [time_table_row_eq ht]
    show monthOf t.start_time = _
    rw [hts]
    rfl

/-- The songplays row the run over e1 and s1 produces. -/
def w9row : SongplayRow :=
  { songplay_id := 0, start_time := 1541121934796, user_id := "15",
    level := "paid", song_id := some "SOUPIRU12A6D4FA1E1",
    artist_id := some "AR5KOSW1187FB35FF4", session_id := 818,
    location := "Chicago-Naperville-Elgin, IL-IN-WI",
    user_agent := "Mozilla/5.0", month := 11, year := 2018 }

/-- Witness for the claim C9 theorem at a concrete input. -/
theorem songplays_partition_keys_witness :
    w9row ∈ songplays_table [e1] [s1] ∧
    (w9row.year = yearOf w9row.start_time ∧
     w9row.month = monthOf w9row.start_time ∧
     ∀ t ∈ time_table [e1], t.start_time = w9row.start_time →
       t.year = w9row.year ∧ t.month = w9row.month) :=
  ⟨by decide, songplays_partition_keys [e1] [s1] w9row (by decide)⟩

/-- Claim C10: within one run the synthetic songplay_id values of the
written songplays table are pairwise distinct, the identifier being assigned
positionally after the joined result is deduplicated. -/
theorem songplay_ids_pairwise_distinct (df_log : List LogRow)
    (df_song : List SongRow) :
    ((songplays_table df_log df_song).map fun r => r.songplay_id).Nodup := by
  unfold songplays_table
  rw [List.map_map]
  have hcomp : ((fun r => r.songplay_id) ∘ songplayOf) =
      (Prod.fst : Nat × (LogRow × Option SongViewRow) → Nat) := rfl
  rw [hcomp, List.enum_map_fst]
  exact List.nodup_range _
